import Mathlib

/-!
Shallow embedding of `create-pull-request.py`.

The script is a single-pass pipeline: it loads a GitHub event, filters it,
derives a branch name, checks for an existing remote branch and for
working-tree changes, and finally commits/pushes and opens a pull request.
External collaborators (the git toolset, the hosting API, the clock) are
modelled as explicit state and as an effect trace; Python exceptions
(`KeyError` from `os.environ[...]` and `str.format`, `TypeError` from
indexing a non-mapping) are modelled with `Except`/`Option`.
-/

namespace CreatePullRequest

/-- A JSON value as produced by `json.load`, restricted to the shapes the
script reads: booleans, strings and string-keyed mappings. -/
inductive PyValue where
  | pyBool (b : Bool)
  | pyStr (s : String)
  | pyDict (entries : List (String × PyValue))
deriving Repr

/-- Errors the Python code can raise on the paths we model:
`KeyError` from `os.environ[k]` or `"{k}".format(**d)` with a missing key,
and `TypeError` from indexing a non-mapping value in a format field. -/
inductive PyError where
  | keyError (key : String)
  | typeError (key : String)
deriving Repr, DecidableEq

deriving instance DecidableEq for Except

/-- The parsed JSON event payload (`event_data` in the script): a
string-keyed mapping. -/
abbrev EventData := List (String × PyValue)

/-- Python `s.startswith(pre)`: an executable prefix test on the character
sequences (equivalent to `String.startsWith`, but reducible). -/
def pyStartsWith (s pre : String) : Bool :=
  pre.data.isPrefixOf s.data

/-- The process environment (`os.environ`). -/
abbrev Env := List (String × String)

mutual
/-- Python `repr` of a value, as used when a mapping is rendered by
`str.format` (dicts render as `\x7b'k': v, ...\x7d`, strings with quotes). -/
def pyRepr : PyValue → String
  | .pyBool true => "True"
  | .pyBool false => "False"
  | .pyStr s => "\x27" ++ s ++ "\x27"
  | .pyDict entries => "\x7b" ++ pyReprEntries entries ++ "\x7d"

/-- Comma-separated `repr` rendering of a mapping's entries. -/
def pyReprEntries : List (String × PyValue) → String
  | [] => ""
  | [(k, v)] => "\x27" ++ k ++ "\x27: " ++ pyRepr v
  | (k, v) :: rest => "\x27" ++ k ++ "\x27: " ++ pyRepr v ++ ", " ++ pyReprEntries rest
end

/-- Python `str()` / `format(v, "")` of a value: `True`/`False` for
booleans, the string itself for strings, `repr` rendering for dicts. -/
def pyToStr : PyValue → String
  | .pyBool true => "True"
  | .pyBool false => "False"
  | .pyStr s => s
  | .pyDict entries => "\x7b" ++ pyReprEntries entries ++ "\x7d"

/-- `"\x7bk\x7d".format(**event_data)`: looks up the top-level key and
renders the value with `str()`; a missing key raises `KeyError`. -/
def formatField (event_data : EventData) (k : String) : Except PyError String :=
  match event_data.lookup k with
  | some v => .ok (pyToStr v)
  | none => .error (.keyError k)

/-- Python `v[k]` on a format-field value: mapping lookup (missing key
raises `KeyError`); indexing a non-mapping with a string raises
`TypeError`. -/
def pyGetItem (v : PyValue) (k : String) : Except PyError PyValue :=
  match v with
  | .pyDict entries =>
    match entries.lookup k with
    | some w => .ok w
    | none => .error (.keyError k)
  | _ => .error (.typeError k)

/-- `"\x7bk[k1][k2]...\x7d".format(**event_data)`: top-level lookup followed
by a chain of `__getitem__` calls, rendered with `str()`. -/
def formatNestedField (event_data : EventData) (k : String) (path : List String) :
    Except PyError String := do
  let v0 ←
    match event_data.lookup k with
    | some v => Except.ok v
    | none => Except.error (PyError.keyError k)
  let v ← path.foldlM pyGetItem v0
  return pyToStr v

/-- `ignore_event(event_name, event_data)`: for push events, ignore when the
payload's `deleted` field renders as the string `True`, or when the `ref`
field does not start with `refs/heads/`; never ignore other events.
Reading a missing field raises (propagated as `Except.error`). -/
def ignore_event (event_name : String) (event_data : EventData) :
    Except PyError Bool :=
  if event_name == "push" then
    match formatField event_data "deleted" with
    | .error e => .error e
    | .ok deleted =>
      if deleted == "True" then .ok true
      else
        match formatField event_data "ref" with
        | .error e => .error e
        | .ok ref =>
          if !(pyStartsWith ref "refs/heads/") then .ok true
          else .ok false
  else
    .ok false

/-- The git working-copy handle (`repo`), exposing exactly what the script
reads: the HEAD commit id, the `rev-parse --short` abbreviation capability,
the cached remote-tracking ref names of `origin`, the `is_dirty()` flag and
the `untracked_files` list. -/
structure GitRepoState where
  headSha : String
  shortShaOf : String → String
  remoteRefs : List String
  isDirty : Bool
  untrackedFiles : List String

/-- `pr_branch_exists(repo, branch)`: scans the remote-tracking refs of
`origin` for a ref whose name is exactly `origin/<branch>`. -/
def pr_branch_exists (repo : GitRepoState) (branch : String) : Bool :=
  repo.remoteRefs.any (fun ref => ref == "origin/" ++ branch)

/-- `get_head_short_sha1(repo)`: `git rev-parse --short HEAD`. -/
def get_head_short_sha1 (repo : GitRepoState) : String :=
  repo.shortShaOf repo.headSha

/-- `get_head_author(event_name, event_data)`: for push events the author
comes from `head_commit.author` in the payload; otherwise it is derived
from `GITHUB_ACTOR` (raising `KeyError` when unset). -/
def get_head_author (env : Env) (event_name : String) (event_data : EventData) :
    Except PyError (String × String) :=
  if event_name == "push" then
    match formatNestedField event_data "head_commit" ["author", "email"] with
    | .error e => .error e
    | .ok email =>
      match formatNestedField event_data "head_commit" ["author", "name"] with
      | .error e => .error e
      | .ok name => .ok (email, name)
  else
    match env.lookup "GITHUB_ACTOR" with
    | none => .error (.keyError "GITHUB_ACTOR")
    | some actor => .ok (actor ++ "@users.noreply.github.com", actor)

/-- `os.environ[k]`: raises `KeyError` when the variable is unset. -/
def environGet (env : Env) (k : String) : Except PyError String :=
  match env.lookup k with
  | some v => .ok v
  | none => .error (.keyError k)

/-- `os.getenv(k, default)`. -/
def getenvD (env : Env) (k : String) (d : String) : String :=
  (env.lookup k).getD d

/-- `bool(os.environ.get(k))`: false when unset or empty, true for any
non-empty value. -/
def envFlag (env : Env) (k : String) : Bool :=
  match env.lookup k with
  | none => false
  | some s => !(s == "")

/-- One externally visible side effect of the Publisher sequence, in the
order the script performs them. `publisherInvoked` marks the call to
`process_event`; the others are the git commands and the hosting-API call. -/
inductive Effect where
  | publisherInvoked
  | gitConfig (key : String) (value : String)
  | remoteSetUrl (url : String)
  | checkoutNewBranch (branch : String)
  | addAll
  | commit (message : String)
  | push (branch : String)
  | createPull (repoSlug : String) (head : String) (base : String)
      (title : String) (body : String)
deriving Repr, DecidableEq

/-- `set_git_config(git, email, name)`: two global git-config writes; the
script wraps each value in literal double quotes. -/
def set_git_config (email name : String) : List Effect :=
  [.gitConfig "user.email" ("\"" ++ email ++ "\""),
   .gitConfig "user.name" ("\"" ++ name ++ "\"")]

/-- `set_git_remote_url(git, token, github_repository)`: rewrites `origin`
to an URL embedding the access token. -/
def set_git_remote_url (token github_repository : String) : List Effect :=
  [.remoteSetUrl ("https://x-access-token:" ++ token ++ "@github.com/" ++
    github_repository)]

/-- `commit_changes(git, branch, commit_message)`: checkout a new branch at
HEAD, stage everything, commit, push with upstream tracking. -/
def commit_changes (branch commit_message : String) : List Effect :=
  [.checkoutNewBranch branch, .addAll, .commit commit_message, .push branch]

/-- `create_pull_request(token, repo, head, base, title, body)`: one
hosting-API call opening the pull request. -/
def create_pull_request (github_repository head base title body : String) :
    List Effect :=
  [.createPull github_repository head base title body]

/-- `process_event(event_name, event_data, repo, branch, base)`: the
Publisher. Reads `GITHUB_TOKEN` and `GITHUB_REPOSITORY` (raising on
absence) and the optional message/title/body, resolves the author, then
performs config, remote rewrite, commit/push and the pull-request call.
Returns the effects performed before the first error, and the error. -/
def process_event (env : Env) (event_name : String) (event_data : EventData)
    (branch base : String) : List Effect × Option PyError :=
  match environGet env "GITHUB_TOKEN" with
  | .error e => ([], some e)
  | .ok github_token =>
  match environGet env "GITHUB_REPOSITORY" with
  | .error e => ([], some e)
  | .ok github_repository =>
  let commit_message := getenvD env "COMMIT_MESSAGE"
    "Auto-committed changes by create-pull-request action"
  let title := getenvD env "PULL_REQUEST_TITLE"
    "Auto-generated by create-pull-request action"
  let body := getenvD env "PULL_REQUEST_BODY"
    ("Auto-generated pull request by " ++
     "[create-pull-request](https://github.com/peter-evans/create-pull-request) GitHub Action")
  match get_head_author env event_name event_data with
  | .error e => ([], some e)
  | .ok (author_email, author_name) =>
    (set_git_config author_email author_name ++
     set_git_remote_url github_token github_repository ++
     commit_changes branch commit_message ++
     create_pull_request github_repository branch base title body,
     none)

/-- `os.environ[GITHUB_REF][11:]`: the script drops the first 11 characters
of the ref unconditionally (11 is the length of `refs/heads/`). -/
def baseBranchOf (github_ref : String) : String :=
  github_ref.drop 11

/-- The branch name the script derives once the prefix gate passed:
`PULL_REQUEST_BRANCH` (default `create-pull-request/patch`) suffixed with
the current unix time when `BRANCH_SUFFIX` is `timestamp`, and with the
short SHA1 of HEAD otherwise. -/
def derivedBranch (env : Env) (repo : GitRepoState) (now : Nat) : String :=
  let branch := getenvD env "PULL_REQUEST_BRANCH" "create-pull-request/patch"
  let branch_suffix := getenvD env "BRANCH_SUFFIX" "short-commit-hash"
  if branch_suffix == "timestamp" then
    branch ++ "-" ++ toString now
  else
    branch ++ "-" ++ get_head_short_sha1 repo

/-- One of the gate predicates the orchestrator evaluates, recorded in the
order of evaluation. -/
inductive Check where
  | ignoreCheck
  | branchPrefixCheck
  | existenceCheck
  | changeCheck
deriving Repr, DecidableEq

/-- Outcome of one run: the side effects performed (in order), the gates
evaluated, the suffixed branch name if one was derived, and the Python
exception that terminated the run, if any. -/
structure RunOutcome where
  trace : List Effect
  checks : List Check
  derived : Option String
  error : Option PyError
deriving Repr, DecidableEq

/-- The part of the top-level script that runs after the event filter
decided to proceed: derive the base and branch names, run the existence
and change gates, and invoke the Publisher. -/
def mainAfterFilter (env : Env) (event_name : String) (event_data : EventData)
    (repo : GitRepoState) (now : Nat) : RunOutcome :=
  let branch := getenvD env "PULL_REQUEST_BRANCH" "create-pull-request/patch"
  match environGet env "GITHUB_REF" with
  | .error e => ⟨[], [], none, some e⟩
  | .ok github_ref =>
    let base := baseBranchOf github_ref
    if !(pyStartsWith base branch) then
      let branch2 := derivedBranch env repo now
      if !(pr_branch_exists repo branch2) then
        if repo.isDirty || decide (repo.untrackedFiles.length > 0) then
          let r := process_event env event_name event_data branch2 base
          ⟨.publisherInvoked :: r.1,
           [.branchPrefixCheck, .existenceCheck, .changeCheck],
           some branch2, r.2⟩
        else
          ⟨[], [.branchPrefixCheck, .existenceCheck, .changeCheck],
           some branch2, none⟩
      else
        ⟨[], [.branchPrefixCheck, .existenceCheck], some branch2, none⟩
    else
      ⟨[], [.branchPrefixCheck], none, none⟩

/-- The whole top-level script: read `GITHUB_EVENT_NAME` and
`GITHUB_EVENT_PATH` (the parsed payload arrives as `event_data`), apply the
`SKIP_IGNORE` bypass or the event filter, then the remaining gates and the
Publisher. `now` is the wall clock read by the timestamp suffix mode. -/
def runMain (env : Env) (event_data : EventData) (repo : GitRepoState)
    (now : Nat) : RunOutcome :=
  match environGet env "GITHUB_EVENT_NAME" with
  | .error e => ⟨[], [], none, some e⟩
  | .ok event_name =>
  match environGet env "GITHUB_EVENT_PATH" with
  | .error e => ⟨[], [], none, some e⟩
  | .ok _event_path =>
  let skip_ignore_event := envFlag env "SKIP_IGNORE"
  if skip_ignore_event then
    mainAfterFilter env event_name event_data repo now
  else
    match ignore_event event_name event_data with
    | .error e => ⟨[], [.ignoreCheck], none, some e⟩
    | .ok true => ⟨[], [.ignoreCheck], none, none⟩
    | .ok false =>
      let r := mainAfterFilter env event_name event_data repo now
      ⟨r.trace, .ignoreCheck :: r.checks, r.derived, r.error⟩

/-- Effects that constitute actual work on the repository or the hosting
service (everything except the `publisherInvoked` marker). -/
def isSideEffect : Effect → Bool
  | .publisherInvoked => false
  | _ => true

/-- The spec's reading of the base-branch derivation: the ref "trimmed of
its `refs/heads/` prefix", i.e. the prefix is removed when present and the
ref is untouched otherwise. Stated for comparison with `baseBranchOf`,
which embeds what the code does. -/
def specTrimRefsHeads (ref : String) : String :=
  if pyStartsWith ref "refs/heads/" then ref.drop 11 else ref

/-! ### Helper lemmas -/

lemma string_append_left_cancel {p s t : String} (h : p ++ s = p ++ t) :
    s = t := by
  apply String.ext
  have hd := congrArg String.data h
  rw [String.data_append, String.data_append] at hd
  exact List.append_cancel_left hd

lemma environGet_eq_ok {env : Env} {k v : String} (h : env.lookup k = some v) :
    environGet env k = .ok v := by
  simp [environGet, h]

lemma lookup_of_environGet_ok {env : Env} {k v : String}
    (h : environGet env k = .ok v) : env.lookup k = some v := by
  unfold environGet at h
  cases hl : env.lookup k <;> rw [hl] at h <;> simp_all

end CreatePullRequest

namespace CreatePullRequest

/-! ### Claims about the event filter and the name derivation -/

/-- Claim C5: for every push event whose payload carries a `deleted` field
and a `ref` field whose rendering does not start with `refs/heads/`,
`ignore_event` returns true. -/
theorem C5_nonbranch_ref_ignored (event_data : EventData) (dv rv : PyValue)
    (hdel : event_data.lookup "deleted" = some dv)
    (href : event_data.lookup "ref" = some rv)
    (hns : pyStartsWith (pyToStr rv) "refs/heads/" = false) :
    ignore_event "push" event_data = .ok true := by
  unfold ignore_event formatField
  rw [hdel, href]
  by_cases hd : pyToStr dv == "True" <;> simp [hd, hns]

/-- Witness for C5 at a tag-push payload. -/
theorem C5_witness :
    ignore_event "push"
      [("deleted", PyValue.pyBool false), ("ref", PyValue.pyStr "refs/tags/v1.0")] =
      Except.ok true :=
  C5_nonbranch_ref_ignored _ (PyValue.pyBool false) (PyValue.pyStr "refs/tags/v1.0")
    rfl rfl (by decide)

/-- Counterexample for C6: a push payload whose `deleted` field is present
but malformed (the string `yes` instead of a boolean) does not make the
filter raise — `ignore_event` silently coerces the field to its string
form, compares it with `True`, and returns `ok false`. -/
theorem C6_counterexample :
    ignore_event "push"
      [("deleted", PyValue.pyStr "yes"), ("ref", PyValue.pyStr "refs/heads/master")] =
      Except.ok false := by
  decide

/-- Claim C6 (amended): a field read by the filter that is missing from the
payload raises a fail-fast `KeyError`; a field that is present but
malformed is coerced to its string rendering and does not raise. -/
theorem C6_missing_field_raises (event_data : EventData) :
    (event_data.lookup "deleted" = none →
      ignore_event "push" event_data = .error (.keyError "deleted")) ∧
    (∀ dv, event_data.lookup "deleted" = some dv → pyToStr dv ≠ "True" →
      event_data.lookup "ref" = none →
      ignore_event "push" event_data = .error (.keyError "ref")) := by
  constructor
  · intro hdel
    unfold ignore_event formatField
    rw [hdel]
    simp
  · intro dv hdel hne href
    unfold ignore_event formatField
    rw [hdel, href]
    simp [hne]

/-- Witness for C6 (amended): a payload lacking `deleted` raises
`KeyError` for `deleted`; one with a non-`True` `deleted` and no `ref`
raises `KeyError` for `ref`. -/
theorem C6_witness :
    ignore_event "push" [("ref", PyValue.pyStr "refs/heads/x")] =
      Except.error (PyError.keyError "deleted") ∧
    ignore_event "push" [("deleted", PyValue.pyBool false)] =
      Except.error (PyError.keyError "ref") :=
  ⟨(C6_missing_field_raises [("ref", PyValue.pyStr "refs/heads/x")]).1 rfl,
   (C6_missing_field_raises [("deleted", PyValue.pyBool false)]).2
     (PyValue.pyBool false) rfl (by decide) rfl⟩

/-- Counterexample for C7: on a ref that does not start with `refs/heads/`
the code still drops the first 11 characters, so the base is not the ref
with a `refs/heads/` prefix trimmed. -/
theorem C7_counterexample :
    baseBranchOf "refs/tags/v1.0" = "1.0" ∧
    specTrimRefsHeads "refs/tags/v1.0" = "refs/tags/v1.0" ∧
    baseBranchOf "refs/tags/v1.0" ≠ specTrimRefsHeads "refs/tags/v1.0" := by
  refine ⟨rfl, by decide, by decide⟩

/-- Claim C7 (amended): the base branch is the ref with its first 11
characters dropped; for every ref that does start with `refs/heads/` this
coincides with trimming that prefix. -/
theorem C7_base_branch_trims (s : String) :
    baseBranchOf ("refs/heads/" ++ s) = s ∧
    (∀ ref : String, pyStartsWith ref "refs/heads/" = true →
      baseBranchOf ref = specTrimRefsHeads ref) := by
  constructor
  · apply String.ext
    unfold baseBranchOf
    rw [String.data_drop, String.data_append]
    have hlen : ("refs/heads/" : String).data.length = 11 := rfl
    rw [← hlen, List.drop_left]
  · intro ref h
    simp [specTrimRefsHeads, baseBranchOf, h]

/-- Witness for C7 (amended) at `refs/heads/master`. -/
theorem C7_witness :
    baseBranchOf "refs/heads/master" = "master" ∧
    baseBranchOf "refs/heads/master" = specTrimRefsHeads "refs/heads/master" := by
  have h := C7_base_branch_trims "master"
  exact ⟨h.1, h.2 "refs/heads/master" (by decide)⟩

/-- Claim C4: with suffix mode `short-commit-hash` (also the default when
`BRANCH_SUFFIX` is unset) the derived branch name is the configured base
name followed by `-` and the abbreviated hash of HEAD; it is a pure
function of HEAD and that configuration (the clock and the rest of the
repository state are irrelevant), and — the abbreviation capability being
injective — changing HEAD changes the name. -/
theorem C4_short_hash_deterministic (env : Env) (repo1 repo2 : GitRepoState)
    (now1 now2 : Nat)
    (hmode : env.lookup "BRANCH_SUFFIX" = none ∨
      env.lookup "BRANCH_SUFFIX" = some "short-commit-hash") :
    derivedBranch env repo1 now1 =
      getenvD env "PULL_REQUEST_BRANCH" "create-pull-request/patch" ++ "-" ++
        repo1.shortShaOf repo1.headSha ∧
    (repo1.shortShaOf = repo2.shortShaOf → repo1.headSha = repo2.headSha →
      derivedBranch env repo1 now1 = derivedBranch env repo2 now2) ∧
    (repo1.shortShaOf = repo2.shortShaOf →
      Function.Injective repo1.shortShaOf →
      repo1.headSha ≠ repo2.headSha →
      derivedBranch env repo1 now1 ≠ derivedBranch env repo2 now2) := by
  have hsuffix : getenvD env "BRANCH_SUFFIX" "short-commit-hash" =
      "short-commit-hash" := by
    rcases hmode with h | h <;> simp [getenvD, h]
  have hshape : ∀ (r : GitRepoState) (n : Nat), derivedBranch env r n =
      getenvD env "PULL_REQUEST_BRANCH" "create-pull-request/patch" ++ "-" ++
        r.shortShaOf r.headSha := by
    intro r n
    simp [derivedBranch, hsuffix, get_head_short_sha1]
  refine ⟨hshape repo1 now1, ?_, ?_⟩
  · intro hf hh
    rw [hshape repo1 now1, hshape repo2 now2, hf, hh]
  · intro hf hinj hne heq
    rw [hshape repo1 now1, hshape repo2 now2, ← hf] at heq
    have hsha : repo1.shortShaOf repo1.headSha = repo1.shortShaOf repo2.headSha :=
      string_append_left_cancel heq
    exact hne (hinj hsha)

/-- Concrete repository states used by witnesses. -/
def witnessRepoA : GitRepoState :=
  ⟨"aaa0000", fun s => s, [], true, []⟩

/-- A second concrete repository state differing from `witnessRepoA` only
in HEAD. -/
def witnessRepoB : GitRepoState :=
  ⟨"bbb1111", fun s => s, [], true, []⟩

/-- Witness for C4: with the default suffix mode, two runs at different
HEADs (and different clock readings) derive different branch names. -/
theorem C4_witness :
    derivedBranch [] witnessRepoA 0 ≠ derivedBranch [] witnessRepoB 7 :=
  (C4_short_hash_deterministic [] witnessRepoA witnessRepoB 0 7
    (Or.inl rfl)).2.2 rfl (fun _ _ h => h) (by decide)

/-! ### Orchestration lemmas -/

lemma mainAfterFilter_of_prefixed_base (env : Env) (en : String) (ed : EventData)
    (repo : GitRepoState) (now : Nat) (ref : String)
    (href : env.lookup "GITHUB_REF" = some ref)
    (hpre : pyStartsWith (baseBranchOf ref)
      (getenvD env "PULL_REQUEST_BRANCH" "create-pull-request/patch") = true) :
    mainAfterFilter env en ed repo now = ⟨[], [.branchPrefixCheck], none, none⟩ := by
  unfold mainAfterFilter
  rw [environGet_eq_ok href]
  simp [hpre]

lemma mainAfterFilter_trace_eq_nil_of_branch_exists (env : Env) (en : String)
    (ed : EventData) (repo : GitRepoState) (now : Nat)
    (hex : pr_branch_exists repo (derivedBranch env repo now) = true) :
    (mainAfterFilter env en ed repo now).trace = [] := by
  unfold mainAfterFilter
  split
  · rfl
  · dsimp only
    split
    · simp [hex]
    · rfl

lemma mainAfterFilter_trace_eq_nil_of_clean (env : Env) (en : String)
    (ed : EventData) (repo : GitRepoState) (now : Nat)
    (hd : repo.isDirty = false) (hu : repo.untrackedFiles = []) :
    (mainAfterFilter env en ed repo now).trace = [] := by
  unfold mainAfterFilter
  split
  · rfl
  · dsimp only
    split
    · split
      · simp [hd, hu]
      · rfl
    · rfl

lemma mainAfterFilter_publishes (env : Env) (en : String) (ed : EventData)
    (repo : GitRepoState) (now : Nat) (ref : String)
    (href : env.lookup "GITHUB_REF" = some ref)
    (hpre : pyStartsWith (baseBranchOf ref)
      (getenvD env "PULL_REQUEST_BRANCH" "create-pull-request/patch") = false)
    (hex : pr_branch_exists repo (derivedBranch env repo now) = false)
    (hch : repo.isDirty = true ∨ repo.untrackedFiles ≠ []) :
    mainAfterFilter env en ed repo now =
      ⟨.publisherInvoked ::
         (process_event env en ed (derivedBranch env repo now) (baseBranchOf ref)).1,
       [.branchPrefixCheck, .existenceCheck, .changeCheck],
       some (derivedBranch env repo now),
       (process_event env en ed (derivedBranch env repo now) (baseBranchOf ref)).2⟩ := by
  have hcond : (repo.isDirty || decide (repo.untrackedFiles.length > 0)) = true := by
    rcases hch with h | h
    · simp [h]
    · simp [List.length_pos.mpr h]
  unfold mainAfterFilter
  rw [environGet_eq_ok href]
  simp [hpre, hex, hcond]

lemma runMain_trace_eq_nil_of_afterFilter (env : Env) (ed : EventData)
    (repo : GitRepoState) (now : Nat)
    (h : ∀ en, (mainAfterFilter env en ed repo now).trace = []) :
    (runMain env ed repo now).trace = [] := by
  unfold runMain
  split
  · rfl
  · split
    · rfl
    · dsimp only
      split
      · exact h _
      · split
        · rfl
        · rfl
        · exact h _

/-! ### Claims about the orchestrator -/

/-- Claim C1: `pr_branch_exists` answers exactly whether a remote-tracking
ref named `origin/<branch>` is present, and whenever the derived branch
name already exists among the remote refs the run performs no effect at
all — the Publisher is never invoked, so there is no commit, no push and
no pull-request API call. -/
theorem C1_existing_branch_blocks_publisher (env : Env) (ed : EventData)
    (repo : GitRepoState) (now : Nat)
    (hex : pr_branch_exists repo (derivedBranch env repo now) = true) :
    (∀ b, pr_branch_exists repo b = true ↔ "origin/" ++ b ∈ repo.remoteRefs) ∧
    (runMain env ed repo now).trace = [] := by
  constructor
  · intro b
    simp [pr_branch_exists, List.any_eq_true]
  · exact runMain_trace_eq_nil_of_afterFilter env ed repo now
      (fun en => mainAfterFilter_trace_eq_nil_of_branch_exists env en ed repo now hex)

/-- A full environment for witnesses: all variables the script requires. -/
def baseEnv : Env :=
  [("GITHUB_EVENT_NAME", "push"),
   ("GITHUB_EVENT_PATH", "/github/workflow/event.json"),
   ("GITHUB_REF", "refs/heads/master"),
   ("GITHUB_TOKEN", "token123"),
   ("GITHUB_REPOSITORY", "octo/repo")]

/-- A well-formed push payload for witnesses. -/
def pushEventData : EventData :=
  [("deleted", PyValue.pyBool false),
   ("ref", PyValue.pyStr "refs/heads/master"),
   ("head_commit", PyValue.pyDict
     [("author", PyValue.pyDict
       [("email", PyValue.pyStr "octo@example.com"),
        ("name", PyValue.pyStr "Octo Cat")])])]

/-- A repository whose remote already has the branch the run would derive. -/
def witnessRepoExisting : GitRepoState :=
  ⟨"abc1234def5678", fun _ => "abc1234",
   ["origin/create-pull-request/patch-abc1234"], true, []⟩

/-- Witness for C1: with the derived branch already on the remote, the
run's trace is empty. -/
theorem C1_witness :
    pr_branch_exists witnessRepoExisting
      (derivedBranch baseEnv witnessRepoExisting 0) = true ∧
    (runMain baseEnv pushEventData witnessRepoExisting 0).trace = [] :=
  ⟨by decide,
   (C1_existing_branch_blocks_publisher baseEnv pushEventData
     witnessRepoExisting 0 (by decide)).2⟩

/-- Claim C2: when the base branch (the ref with its first 11 characters
dropped) already starts with the configured branch prefix, the whole run
is skipped: no effect is performed, no suffixed branch name is derived,
and neither the existence check nor the change check is evaluated. -/
theorem C2_prefix_base_skips_run (env : Env) (ed : EventData)
    (repo : GitRepoState) (now : Nat) (ref : String)
    (href : env.lookup "GITHUB_REF" = some ref)
    (hpre : pyStartsWith (baseBranchOf ref)
      (getenvD env "PULL_REQUEST_BRANCH" "create-pull-request/patch") = true) :
    (runMain env ed repo now).trace = [] ∧
    (runMain env ed repo now).derived = none ∧
    Check.existenceCheck ∉ (runMain env ed repo now).checks ∧
    Check.changeCheck ∉ (runMain env ed repo now).checks := by
  unfold runMain
  split
  · exact ⟨rfl, rfl, by simp, by simp⟩
  · split
    · exact ⟨rfl, rfl, by simp, by simp⟩
    · dsimp only
      split
      · rw [mainAfterFilter_of_prefixed_base _ _ _ _ _ _ href hpre]
        exact ⟨rfl, rfl, by decide, by decide⟩
      · split
        · exact ⟨rfl, rfl, by simp, by simp⟩
        · exact ⟨rfl, rfl, by simp, by simp⟩
        · rw [mainAfterFilter_of_prefixed_base _ _ _ _ _ _ href hpre]
          exact ⟨rfl, rfl, by decide, by decide⟩

/-- Environment whose current ref is itself a branch created by the
action: the derived base starts with the configured prefix. -/
def witnessEnvPrefixed : Env :=
  [("GITHUB_EVENT_NAME", "push"),
   ("GITHUB_EVENT_PATH", "/github/workflow/event.json"),
   ("GITHUB_REF", "refs/heads/create-pull-request/patch-abc1234")]

/-- Witness for C2 on a checkout of a previously created PR branch. -/
theorem C2_witness :
    (runMain witnessEnvPrefixed pushEventData witnessRepoA 0).trace = [] ∧
    (runMain witnessEnvPrefixed pushEventData witnessRepoA 0).derived = none ∧
    Check.existenceCheck ∉ (runMain witnessEnvPrefixed pushEventData witnessRepoA 0).checks ∧
    Check.changeCheck ∉ (runMain witnessEnvPrefixed pushEventData witnessRepoA 0).checks :=
  C2_prefix_base_skips_run witnessEnvPrefixed pushEventData witnessRepoA 0
    "refs/heads/create-pull-request/patch-abc1234" rfl (by decide)

/-- Claim C3: a clean working tree (not dirty, no untracked files) means
the Publisher is never invoked; conversely, when the tree is dirty or has
an untracked file and every other gate passes (event filter skipped or
passing, base not prefixed, derived branch absent from the remote), the
Publisher is invoked. -/
theorem C3_change_gate (env : Env) (ed : EventData) (repo : GitRepoState)
    (now : Nat) :
    (repo.isDirty = false → repo.untrackedFiles = [] →
      Effect.publisherInvoked ∉ (runMain env ed repo now).trace) ∧
    (∀ en p ref, env.lookup "GITHUB_EVENT_NAME" = some en →
      env.lookup "GITHUB_EVENT_PATH" = some p →
      (envFlag env "SKIP_IGNORE" = true ∨ ignore_event en ed = .ok false) →
      env.lookup "GITHUB_REF" = some ref →
      pyStartsWith (baseBranchOf ref)
        (getenvD env "PULL_REQUEST_BRANCH" "create-pull-request/patch") = false →
      pr_branch_exists repo (derivedBranch env repo now) = false →
      (repo.isDirty = true ∨ repo.untrackedFiles ≠ []) →
      Effect.publisherInvoked ∈ (runMain env ed repo now).trace) := by
  constructor
  · intro hd hu
    rw [runMain_trace_eq_nil_of_afterFilter env ed repo now
      (fun en => mainAfterFilter_trace_eq_nil_of_clean env en ed repo now hd hu)]
    exact List.not_mem_nil _
  · intro en p ref hen hp hfil href hpre hex hch
    have hmain := mainAfterFilter_publishes env en ed repo now ref href hpre hex hch
    unfold runMain
    rw [environGet_eq_ok hen, environGet_eq_ok hp]
    dsimp only
    rcases hfil with hf | hig
    · rw [hf]
      simp only [if_true]
      rw [hmain]
      exact List.mem_cons_self _ _
    · cases hb : envFlag env "SKIP_IGNORE"
      · simp only [hb, Bool.false_eq_true, if_false]
        rw [hig]
        dsimp only
        rw [hmain]
        exact List.mem_cons_self _ _
      · simp only [hb, if_true]
        rw [hmain]
        exact List.mem_cons_self _ _

/-- A dirty repository with no remote branches, used by witnesses. -/
def witnessRepoDirty : GitRepoState :=
  ⟨"abc1234def5678", fun _ => "abc1234", [], true, []⟩

/-- Witness for C3: a dirty tree with all gates passing invokes the
Publisher. -/
theorem C3_witness :
    Effect.publisherInvoked ∈
      (runMain baseEnv pushEventData witnessRepoDirty 0).trace :=
  (C3_change_gate baseEnv pushEventData witnessRepoDirty 0).2
    "push" "/github/workflow/event.json" "refs/heads/master"
    rfl rfl (Or.inr (by decide)) rfl (by decide) (by decide) (Or.inl rfl)

lemma process_event_missing_config (env : Env) (en : String) (ed : EventData)
    (branch base : String)
    (h : env.lookup "GITHUB_TOKEN" = none ∨
      env.lookup "GITHUB_REPOSITORY" = none) :
    (process_event env en ed branch base).1 = [] ∧
    ∃ e, (process_event env en ed branch base).2 = some e := by
  unfold process_event
  rcases h with h | h
  · simp [environGet, h]
  · cases ht : env.lookup "GITHUB_TOKEN" <;> simp [environGet, ht, h]

lemma mainAfterFilter_trace_error_spec (env : Env) (en : String)
    (ed : EventData) (repo : GitRepoState) (now : Nat) :
    (mainAfterFilter env en ed repo now).trace = [] ∨
    ∃ ref, (mainAfterFilter env en ed repo now).trace =
        .publisherInvoked ::
          (process_event env en ed (derivedBranch env repo now) (baseBranchOf ref)).1 ∧
      (mainAfterFilter env en ed repo now).error =
        (process_event env en ed (derivedBranch env repo now) (baseBranchOf ref)).2 := by
  unfold mainAfterFilter
  split
  · exact Or.inl rfl
  · rename_i github_ref _heq
    dsimp only
    split
    · split
      · split
        · exact Or.inr ⟨github_ref, rfl, rfl⟩
        · exact Or.inl rfl
      · exact Or.inl rfl
    · exact Or.inl rfl

lemma runMain_trace_error_spec (env : Env) (ed : EventData)
    (repo : GitRepoState) (now : Nat) :
    (runMain env ed repo now).trace = [] ∨
    ∃ en ref, (runMain env ed repo now).trace =
        .publisherInvoked ::
          (process_event env en ed (derivedBranch env repo now) (baseBranchOf ref)).1 ∧
      (runMain env ed repo now).error =
        (process_event env en ed (derivedBranch env repo now) (baseBranchOf ref)).2 := by
  unfold runMain
  split
  · exact Or.inl rfl
  · rename_i event_name _h1
    split
    · exact Or.inl rfl
    · dsimp only
      split
      · rcases mainAfterFilter_trace_error_spec env event_name ed repo now with
          h | ⟨ref, h1, h2⟩
        · exact Or.inl h
        · exact Or.inr ⟨event_name, ref, h1, h2⟩
      · split
        · exact Or.inl rfl
        · exact Or.inl rfl
        · rcases mainAfterFilter_trace_error_spec env event_name ed repo now with
            h | ⟨ref, h1, h2⟩
          · exact Or.inl h
          · exact Or.inr ⟨event_name, ref, h1, h2⟩

/-- Claim C8: when `GITHUB_TOKEN` or `GITHUB_REPOSITORY` is absent, the
run performs no side effect at all — no git identity configuration, no
remote rewrite, no checkout, no commit, no push and no hosting-API call —
and whenever the Publisher was reached, the run terminates with an
error. -/
theorem C8_missing_config_aborts_clean (env : Env) (ed : EventData)
    (repo : GitRepoState) (now : Nat)
    (h : env.lookup "GITHUB_TOKEN" = none ∨
      env.lookup "GITHUB_REPOSITORY" = none) :
    (runMain env ed repo now).trace.filter isSideEffect = [] ∧
    (Effect.publisherInvoked ∈ (runMain env ed repo now).trace →
      ∃ e, (runMain env ed repo now).error = some e) := by
  rcases runMain_trace_error_spec env ed repo now with h0 | ⟨en, ref, h1, h2⟩
  · rw [h0]
    exact ⟨rfl, fun hm => absurd hm (List.not_mem_nil _)⟩
  · have hp := process_event_missing_config env en ed
      (derivedBranch env repo now) (baseBranchOf ref) h
    constructor
    · rw [h1, hp.1]
      rfl
    · intro _
      rw [h2]
      exact hp.2

/-- An environment lacking the Publisher's required `GITHUB_TOKEN`. -/
def witnessEnvNoToken : Env :=
  [("GITHUB_EVENT_NAME", "push"),
   ("GITHUB_EVENT_PATH", "/github/workflow/event.json"),
   ("GITHUB_REF", "refs/heads/master"),
   ("GITHUB_REPOSITORY", "octo/repo")]

/-- Witness for C8: without `GITHUB_TOKEN`, a run that reaches the
Publisher does no work and surfaces an error. -/
theorem C8_witness :
    (runMain witnessEnvNoToken pushEventData witnessRepoDirty 0).trace.filter
      isSideEffect = [] ∧
    (Effect.publisherInvoked ∈
        (runMain witnessEnvNoToken pushEventData witnessRepoDirty 0).trace →
      ∃ e, (runMain witnessEnvNoToken pushEventData witnessRepoDirty 0).error =
        some e) :=
  C8_missing_config_aborts_clean witnessEnvNoToken pushEventData
    witnessRepoDirty 0 (Or.inl rfl)

lemma ignoreCheck_not_mem_mainAfterFilter (env : Env) (en : String)
    (ed : EventData) (repo : GitRepoState) (now : Nat) :
    Check.ignoreCheck ∉ (mainAfterFilter env en ed repo now).checks := by
  unfold mainAfterFilter
  split
  · simp
  · dsimp only
    split
    · split
      · split
        · simp
        · simp
      · simp
    · simp

lemma mainAfterFilter_checks_eq (env : Env) (en : String) (ed : EventData)
    (repo : GitRepoState) (now : Nat) (ref : String)
    (href : env.lookup "GITHUB_REF" = some ref) :
    (mainAfterFilter env en ed repo now).checks =
      if pyStartsWith (baseBranchOf ref)
          (getenvD env "PULL_REQUEST_BRANCH" "create-pull-request/patch") = true then
        [Check.branchPrefixCheck]
      else if pr_branch_exists repo (derivedBranch env repo now) = true then
        [Check.branchPrefixCheck, Check.existenceCheck]
      else
        [Check.branchPrefixCheck, Check.existenceCheck, Check.changeCheck] := by
  unfold mainAfterFilter
  rw [environGet_eq_ok href]
  dsimp only
  cases hpre : pyStartsWith (baseBranchOf ref)
      (getenvD env "PULL_REQUEST_BRANCH" "create-pull-request/patch")
  · simp only [hpre, Bool.not_false, if_true, Bool.false_eq_true, if_false]
    cases hex : pr_branch_exists repo (derivedBranch env repo now)
    · simp only [hex, Bool.not_false, if_true, Bool.false_eq_true, if_false]
      split <;> rfl
    · simp only [hex, Bool.not_true, Bool.false_eq_true, if_false, if_true]
  · simp [hpre]

lemma mainAfterFilter_mem_checks (env : Env) (en : String) (ed : EventData)
    (repo : GitRepoState) (now : Nat) (ref : String)
    (href : env.lookup "GITHUB_REF" = some ref) :
    Check.branchPrefixCheck ∈ (mainAfterFilter env en ed repo now).checks ∧
    (pyStartsWith (baseBranchOf ref)
        (getenvD env "PULL_REQUEST_BRANCH" "create-pull-request/patch") = false →
      Check.existenceCheck ∈ (mainAfterFilter env en ed repo now).checks ∧
      (pr_branch_exists repo (derivedBranch env repo now) = false →
        Check.changeCheck ∈ (mainAfterFilter env en ed repo now).checks)) := by
  have hck := mainAfterFilter_checks_eq env en ed repo now ref href
  refine ⟨?_, fun hpre => ⟨?_, fun hex => ?_⟩⟩
  · rw [hck]
    split_ifs <;> decide
  · rw [hck, hpre]
    simp only [Bool.false_eq_true, if_false]
    split_ifs <;> decide
  · rw [hck, hpre, hex]
    simp only [Bool.false_eq_true, if_false]
    decide

/-- Claim C9: a non-empty `SKIP_IGNORE` — whatever its text, including
`false` or `0` — bypasses the event filter entirely (`ignore_event` is
never evaluated) and the run proceeds to the branch-prefix, existence and
change gates regardless of the payload; only an unset or empty
`SKIP_IGNORE` leaves the filter active. -/
theorem C9_skip_ignore_bypass (env : Env) (ed : EventData)
    (repo : GitRepoState) (now : Nat) :
    (∀ s, env.lookup "SKIP_IGNORE" = some s → s ≠ "" →
      Check.ignoreCheck ∉ (runMain env ed repo now).checks ∧
      (∀ en p ref, env.lookup "GITHUB_EVENT_NAME" = some en →
        env.lookup "GITHUB_EVENT_PATH" = some p →
        env.lookup "GITHUB_REF" = some ref →
        Check.branchPrefixCheck ∈ (runMain env ed repo now).checks ∧
        (pyStartsWith (baseBranchOf ref)
            (getenvD env "PULL_REQUEST_BRANCH" "create-pull-request/patch") = false →
          Check.existenceCheck ∈ (runMain env ed repo now).checks ∧
          (pr_branch_exists repo (derivedBranch env repo now) = false →
            Check.changeCheck ∈ (runMain env ed repo now).checks)))) ∧
    ((env.lookup "SKIP_IGNORE" = none ∨ env.lookup "SKIP_IGNORE" = some "") →
      ∀ en p, env.lookup "GITHUB_EVENT_NAME" = some en →
        env.lookup "GITHUB_EVENT_PATH" = some p →
        Check.ignoreCheck ∈ (runMain env ed repo now).checks) := by
  constructor
  · intro s hs hne
    have hf : envFlag env "SKIP_IGNORE" = true := by
      simp [envFlag, hs]
      exact hne
    constructor
    · unfold runMain
      split
      · simp
      · split
        · simp
        · dsimp only
          rw [hf]
          simp only [if_true]
          exact ignoreCheck_not_mem_mainAfterFilter env _ ed repo now
    · intro en p ref hen hp href
      unfold runMain
      rw [environGet_eq_ok hen, environGet_eq_ok hp]
      dsimp only
      rw [hf]
      simp only [if_true]
      exact mainAfterFilter_mem_checks env en ed repo now ref href
  · intro hun en p hen hp
    have hf : envFlag env "SKIP_IGNORE" = false := by
      rcases hun with h | h <;> simp [envFlag, h]
    unfold runMain
    rw [environGet_eq_ok hen, environGet_eq_ok hp]
    dsimp only
    rw [hf]
    simp only [Bool.false_eq_true, if_false]
    split
    · simp
    · simp
    · exact List.mem_cons_self _ _

/-- `baseEnv` with `SKIP_IGNORE` set to the non-empty string `false`. -/
def witnessEnvSkip : Env :=
  [("GITHUB_EVENT_NAME", "push"),
   ("GITHUB_EVENT_PATH", "/github/workflow/event.json"),
   ("GITHUB_REF", "refs/heads/master"),
   ("SKIP_IGNORE", "false")]

/-- A deleted-branch push payload, which the filter would ignore. -/
def deletedEventData : EventData :=
  [("deleted", PyValue.pyBool true),
   ("ref", PyValue.pyStr "refs/heads/master")]

/-- Witness for C9: with `SKIP_IGNORE=false`, even a deleted-branch push
event bypasses the filter and reaches the change gate. -/
theorem C9_witness :
    Check.ignoreCheck ∉
      (runMain witnessEnvSkip deletedEventData witnessRepoDirty 0).checks ∧
    Check.changeCheck ∈
      (runMain witnessEnvSkip deletedEventData witnessRepoDirty 0).checks := by
  have h := (C9_skip_ignore_bypass witnessEnvSkip deletedEventData
    witnessRepoDirty 0).1 "false" rfl (by decide)
  exact ⟨h.1,
    ((h.2 "push" "/github/workflow/event.json" "refs/heads/master"
      rfl rfl rfl).2 (by decide)).2 (by decide)⟩

/-- Claim C10: for non-push events the author identity is derived from
`GITHUB_ACTOR` (email `<actor>@users.noreply.github.com`, name the actor),
and when `GITHUB_ACTOR` is unset the Publisher aborts with a `KeyError`
before performing any git side effect. -/
theorem C10_actor_identity (env : Env) (event_name : String) (ed : EventData)
    (branch base : String) (hnp : event_name ≠ "push") :
    (∀ actor, env.lookup "GITHUB_ACTOR" = some actor →
      get_head_author env event_name ed =
        .ok (actor ++ "@users.noreply.github.com", actor)) ∧
    (∀ tok slug, env.lookup "GITHUB_TOKEN" = some tok →
      env.lookup "GITHUB_REPOSITORY" = some slug →
      env.lookup "GITHUB_ACTOR" = none →
      process_event env event_name ed branch base =
        ([], some (.keyError "GITHUB_ACTOR"))) := by
  have hb : (event_name == "push") = false := beq_eq_false_iff_ne.mpr hnp
  constructor
  · intro actor ha
    unfold get_head_author
    rw [hb]
    simp only [Bool.false_eq_true, if_false]
    rw [ha]
  · intro tok slug ht hs ha
    unfold process_event
    rw [environGet_eq_ok ht, environGet_eq_ok hs]
    dsimp only
    unfold get_head_author
    rw [hb]
    simp only [Bool.false_eq_true, if_false]
    rw [ha]

/-- An environment with the Publisher's required values but no
`GITHUB_ACTOR`. -/
def witnessEnvNoActor : Env :=
  [("GITHUB_TOKEN", "token123"), ("GITHUB_REPOSITORY", "octo/repo")]

/-- Witness for C10: a scheduled (non-push) event with `GITHUB_ACTOR` set
derives the noreply identity, and without it the Publisher aborts having
done nothing. -/
theorem C10_witness :
    get_head_author [("GITHUB_ACTOR", "octo")] "schedule" [] =
      Except.ok ("octo@users.noreply.github.com", "octo") ∧
    process_event witnessEnvNoActor "schedule" []
      "create-pull-request/patch-abc1234" "master" =
      ([], some (PyError.keyError "GITHUB_ACTOR")) :=
  ⟨(C10_actor_identity [("GITHUB_ACTOR", "octo")] "schedule" [] "b" "m"
      (by decide)).1 "octo" rfl,
   (C10_actor_identity witnessEnvNoActor "schedule" []
      "create-pull-request/patch-abc1234" "master" (by decide)).2
     "token123" "octo/repo" rfl rfl rfl⟩

end CreatePullRequest
